import Mathlib

/-!
Shallow embedding of the CubicClientKit TypeScript client
(src/core/cubicclient.ts, src/utils/types.ts).

JavaScript truthiness is modelled explicitly: a possibly-absent string
field is `Option String`, and it is truthy exactly when it is present and
non-empty; an object-valued field is truthy exactly when present; a number
is falsy exactly when it is 0.
-/

namespace CubicClientKit

/-- The `sender` part of a Message; at runtime either field may be absent. -/
structure Sender where
  id : Option String
  name : Option String
deriving Repr, DecidableEq

/-- A Message as received at runtime: every declared field may be absent,
matching what the validation code checks for. -/
structure Message where
  sender : Option Sender
  type : Option String
  content : Option String
  timestamp : Option String
deriving Repr, DecidableEq

/-- Request payload for agent calls (`CallRequest` in types.ts). -/
structure CallRequest where
  messages : List Message
deriving Repr, DecidableEq

/-- JS truthiness of a possibly-absent string: absent and `""` are falsy. -/
def strTruthy : Option String → Bool
  | none => false
  | some s => !s.isEmpty

/-- JS truthiness of a possibly-absent number: absent and `0` are falsy. -/
def intTruthy : Option Int → Bool
  | none => false
  | some n => n != 0

/-- One message's validation chain from `prepareCallRequest`, shared by the
single-message branch (`pre = "Message"`) and the array branch
(`pre = "Each message"`); the two branches of the source differ only in
that word of the thrown message. -/
def checkMessage (pre : String) (m : Message) : Except String Unit :=
  if !m.sender.isSome || !strTruthy m.content then
    .error (pre ++ " must have both sender and content properties")
  else if !strTruthy (m.sender.bind Sender.id) then
    .error (pre ++ " sender must have an id property")
  else if !strTruthy m.type then
    .error (pre ++ " must have a type property")
  else
    .ok ()

/-- The `for (const message of messages)` validation loop: stops at the
first failing message. -/
def validateMessages : List Message → Except String Unit
  | [] => .ok ()
  | m :: rest =>
    match checkMessage "Each message" m with
    | .error e => .error e
    | .ok _ => validateMessages rest

/-- The union argument type `Message[] | Message` of the dispatch methods. -/
inductive CallInput where
  | single (m : Message)
  | array (ms : List Message)
deriving Repr, DecidableEq

/-- `CubicClient.prepareCallRequest`: wraps a single message into a
one-element array, rejects an empty array, validates every message, and
otherwise returns the input sequence unchanged inside a `CallRequest`. -/
def prepareCallRequest : CallInput → Except String CallRequest
  | .single m =>
    match checkMessage "Message" m with
    | .error e => .error e
    | .ok _ => .ok ⟨[m]⟩
  | .array ms =>
    if ms.length = 0 then
      .error "messages array cannot be empty"
    else
      match validateMessages ms with
      | .error e => .error e
      | .ok _ => .ok ⟨ms⟩

/-- A message that passes every check of `prepareCallRequest`. -/
def validMessage (m : Message) : Bool :=
  m.sender.isSome && strTruthy m.content
    && strTruthy (m.sender.bind Sender.id) && strTruthy m.type

/-- The shape of an axios rejection as inspected by the retry interceptor:
`error.code`, `error.response.status` (absent when there was no HTTP
response) and whether `error.config` is present. -/
structure AxiosError where
  code : Option String
  status : Option Nat
  hasConfig : Bool
deriving Repr, DecidableEq

/-- The interceptor's failure classifier: retry only on `ECONNABORTED`,
`ENOTFOUND`, `ECONNREFUSED`, or an HTTP response with status >= 500. -/
def isRetryable (e : AxiosError) : Bool :=
  e.code == some "ECONNABORTED"
    || e.code == some "ENOTFOUND"
    || e.code == some "ECONNREFUSED"
    || (match e.status with
        | some s => decide (500 ≤ s)
        | none => false)

/-- JS `>=` on a possibly-undefined counter: `undefined >= m` is false. -/
def jsGE : Option Nat → Nat → Bool
  | none, _ => false
  | some n, m => decide (m ≤ n)

/-- The request configuration an attempt is issued with (method, path,
payload, per-attempt timeout taken from the axios instance). -/
structure RequestConfig where
  method : String
  url : String
  body : Option CallRequest
  timeout : Int
deriving Repr, DecidableEq

deriving instance DecidableEq for Except

/-- Observable trace of one logical request: the configs issued (one per
attempt, in order), the backoff delays waited in milliseconds, and the
final outcome. -/
structure RetryResult (α : Type) where
  issued : List RequestConfig
  delays : List Nat
  result : Except AxiosError α
deriving Repr, DecidableEq

/-- The response interceptor installed when `options.retry > 0`: on failure
it rejects when `config` is absent or `config.__retryCount >= maxRetries`
(the counter starts out absent, and `undefined >= m` is false in JS);
otherwise it increments the counter, and when the failure is retryable
waits `1000 * count` ms and reissues the same config, else rejects. -/
def runRetry {α : Type} (maxRetries : Nat)
    (transport : Nat → RequestConfig → Except AxiosError α)
    (cfg : RequestConfig) (attempt : Nat) (retryCount : Option Nat) :
    RetryResult α :=
  match transport attempt cfg with
  | .ok r => ⟨[cfg], [], .ok r⟩
  | .error e =>
    if h : (!e.hasConfig || jsGE retryCount maxRetries) = true then
      ⟨[cfg], [], .error e⟩
    else
      let n := retryCount.getD 0 + 1
      if isRetryable e then
        let rest := runRetry maxRetries transport cfg (attempt + 1) (some n)
        ⟨cfg :: rest.issued, 1000 * n :: rest.delays, rest.result⟩
      else
        ⟨[cfg], [], .error e⟩
termination_by maxRetries + 1 - retryCount.getD 0
decreasing_by
  have h2 : jsGE retryCount maxRetries = false := by
    revert h
    cases jsGE retryCount maxRetries <;> simp
  cases retryCount with
  | none => simp only [Option.getD_none, Option.getD_some]; omega
  | some k =>
    have hk : k < maxRetries := by simpa [jsGE, not_le] using h2
    simp only [Option.getD_some]
    omega

/-- A request issued with no interceptor installed: exactly one attempt. -/
def oneAttempt {α : Type}
    (transport : Nat → RequestConfig → Except AxiosError α)
    (cfg : RequestConfig) : RetryResult α :=
  ⟨[cfg], [], transport 0 cfg⟩

/-- The options object accepted by the constructor. -/
structure CubicClientOptions where
  baseUrl : Option String
  timeout : Option Int := none
  retry : Option Int := none
deriving Repr, DecidableEq

/-- The constructed client: base URL, per-attempt timeout of the axios
instance, and `some maxRetries` exactly when the retry interceptor was
installed. -/
structure CubicClient where
  baseURL : String
  timeout : Int
  retryMax : Option Nat
deriving Repr, DecidableEq

/-- The `CubicClient` constructor: throws "baseUrl is required" when
`options.baseUrl` is falsy; the instance timeout is
`options.timeout || 90000`; the interceptor is installed only when
`options.retry && options.retry > 0`. -/
def createClient (o : CubicClientOptions) : Except String CubicClient :=
  if !strTruthy o.baseUrl then
    .error "baseUrl is required"
  else
    .ok { baseURL := o.baseUrl.getD ""
        , timeout := if intTruthy o.timeout then o.timeout.getD 0 else 90000
        , retryMax :=
            if intTruthy o.retry && decide (0 < o.retry.getD 0) then
              some (o.retry.getD 0).toNat
            else
              none }

/-- Issue one logical request through the client: with the interceptor
installed this is the retry loop starting at an absent counter, otherwise
a single attempt. -/
def clientSend {α : Type} (c : CubicClient)
    (transport : Nat → RequestConfig → Except AxiosError α)
    (cfg : RequestConfig) : RetryResult α :=
  match c.retryMax with
  | none => oneAttempt transport cfg
  | some m => runRetry m transport cfg 0 none

/-- Upper-case hex digit of a value below 16. -/
def hexDigit (n : Nat) : Char :=
  if n < 10 then Char.ofNat (48 + n) else Char.ofNat (55 + n)

/-- UTF-8 bytes of one Unicode scalar value, as numbers. -/
def utf8Bytes (c : Char) : List Nat :=
  let n := c.toNat
  if n < 128 then [n]
  else if n < 2048 then [192 + n / 64, 128 + n % 64]
  else if n < 65536 then [224 + n / 4096, 128 + n / 64 % 64, 128 + n % 64]
  else [240 + n / 262144, 128 + n / 4096 % 64, 128 + n / 64 % 64, 128 + n % 64]

/-- The characters `encodeURIComponent` leaves unescaped:
`A-Z a-z 0-9 - _ . ! ~ * ' ( )`. -/
def isURIComponentUnescaped (c : Char) : Bool :=
  (65 ≤ c.toNat && c.toNat ≤ 90)
    || (97 ≤ c.toNat && c.toNat ≤ 122)
    || (48 ≤ c.toNat && c.toNat ≤ 57)
    || List.contains [45, 95, 46, 33, 126, 42, 39, 40, 41] c.toNat

/-- JS `encodeURIComponent`: unescaped characters pass through, every other
character becomes the `%XX` escapes of its UTF-8 bytes. -/
def encodeURIComponent (s : String) : String :=
  String.join (s.data.map fun c =>
    if isURIComponentUnescaped c then
      String.singleton c
    else
      String.join ((utf8Bytes c).map fun b =>
        String.mk ['%', hexDigit (b / 16), hexDigit (b % 16)]))

/-- The `sender` of a CallResponse. -/
structure ResponseSender where
  id : String
  name : String
deriving Repr, DecidableEq

/-- The `metadata` of a CallResponse. -/
structure CallMetadata where
  usedToken : Nat
  usedTools : Nat
deriving Repr, DecidableEq

/-- Response body of the dispatch endpoints (`CallResponse` in types.ts). -/
structure CallResponse where
  sender : ResponseSender
  timestamp : String
  type : String
  content : String
  metadata : CallMetadata
deriving Repr, DecidableEq

/-- Response body of `GET /agents`. -/
structure AgentsResponse where
  availableAgents : List String
deriving Repr, DecidableEq

/-- Outcome of invoking a public method: either a synchronous throw before
any network activity, or a network round trip with its retry trace. -/
inductive CallOutcome (α : Type) where
  | thrown (msg : String)
  | network (r : RetryResult α)
deriving Repr, DecidableEq

/-- What the caller finally observes: a synchronous throw, a transport
failure, or the value the method resolves with. -/
inductive CallResult (β : Type) where
  | thrown (msg : String)
  | failed (e : AxiosError)
  | ok (v : β)
deriving Repr, DecidableEq

/-- Unwrap a method's outcome with the field extraction the method applies
to the response body (`response.data.content`, `availableAgents`, ...). -/
def outcomeValue {α β : Type} (f : α → β) : CallOutcome α → CallResult β
  | .thrown msg => .thrown msg
  | .network r =>
    match r.result with
    | .error e => .failed e
    | .ok v => .ok (f v)

/-- `CubicClient.call`: normalize the input, `POST /dispatch` with the
payload; the method resolves with `response.data.content`. -/
def call (c : CubicClient) (messages : CallInput)
    (transport : Nat → RequestConfig → Except AxiosError CallResponse) :
    CallOutcome CallResponse :=
  match prepareCallRequest messages with
  | .error e => .thrown e
  | .ok payload =>
    .network (clientSend c transport
      ⟨"POST", "/dispatch", some payload, c.timeout⟩)

/-- `CubicClient.callAgent`: throws "agentName is required" when the name
is falsy, otherwise normalizes the input and issues
`POST /dispatch/{encodeURIComponent(agentName)}`. -/
def callAgent (c : CubicClient) (agentName : Option String)
    (messages : CallInput)
    (transport : Nat → RequestConfig → Except AxiosError CallResponse) :
    CallOutcome CallResponse :=
  if !strTruthy agentName then
    .thrown "agentName is required"
  else
    match prepareCallRequest messages with
    | .error e => .thrown e
    | .ok payload =>
      .network (clientSend c transport
        ⟨"POST", "/dispatch/" ++ encodeURIComponent (agentName.getD "")
        , some payload, c.timeout⟩)

/-- `CubicClient.getAgents`: `GET /agents`; the method resolves with
`response.data.availableAgents`. -/
def getAgents (c : CubicClient)
    (transport : Nat → RequestConfig → Except AxiosError AgentsResponse) :
    CallOutcome AgentsResponse :=
  .network (clientSend c transport ⟨"GET", "/agents", none, c.timeout⟩)

/-- Which validation check a message fails first, as the tail of the
thrown message (shared between the two branches of the source). -/
def violationSuffix (m : Message) : Option String :=
  if !m.sender.isSome || !strTruthy m.content then
    some " must have both sender and content properties"
  else if !strTruthy (m.sender.bind Sender.id) then
    some " sender must have an id property"
  else if !strTruthy m.type then
    some " must have a type property"
  else
    none

lemma checkMessage_eq_violation (pre : String) (m : Message) :
    checkMessage pre m =
      match violationSuffix m with
      | none => .ok ()
      | some t => .error (pre ++ t) := by
  unfold checkMessage violationSuffix
  split_ifs <;> rfl

lemma violationSuffix_none_iff (m : Message) :
    violationSuffix m = none ↔ validMessage m = true := by
  unfold violationSuffix validMessage
  cases hs : m.sender.isSome <;>
    cases hc : strTruthy m.content <;>
      cases hid : strTruthy (m.sender.bind Sender.id) <;>
        cases hty : strTruthy m.type <;>
          simp [hs, hc, hid, hty]

lemma validateMessages_ok (ms : List Message)
    (h : ∀ x ∈ ms, validMessage x = true) :
    validateMessages ms = .ok () := by
  induction ms with
  | nil => rfl
  | cons m rest ih =>
    have hm : validMessage m = true := h m (List.mem_cons_self m rest)
    have hv : violationSuffix m = none := (violationSuffix_none_iff m).mpr hm
    unfold validateMessages
    rw [checkMessage_eq_violation, hv]
    exact ih fun x hx => h x (List.mem_cons_of_mem m hx)

/-- Every attempt of one logical request is issued with the same request
configuration: the interceptor reissues the original `config` untouched. -/
lemma runRetry_issued {α : Type} (maxRetries : Nat)
    (t : Nat → RequestConfig → Except AxiosError α) (cfg : RequestConfig)
    (attempt : Nat) (rc : Option Nat) :
    ∀ x ∈ (runRetry maxRetries t cfg attempt rc).issued, x = cfg := by
  rw [runRetry]
  cases ht : t attempt cfg with
  | ok r => dsimp only; intro x hx; simp_all
  | error e =>
    dsimp only
    by_cases hg : (!e.hasConfig || jsGE rc maxRetries) = true
    · rw [dif_pos hg]; intro x hx; simp_all
    · rw [dif_neg hg]
      by_cases hre : isRetryable e = true
      · rw [if_pos hre]
        intro x hx
        rcases List.mem_cons.mp hx with h | h
        · exact h
        · exact runRetry_issued maxRetries t cfg (attempt + 1)
            (some (rc.getD 0 + 1)) x h
      · rw [if_neg hre]; intro x hx; simp_all
termination_by maxRetries + 1 - rc.getD 0
decreasing_by
  have h2 : jsGE rc maxRetries = false := by
    revert hg
    cases jsGE rc maxRetries <;> simp
  cases rc with
  | none => simp only [Option.getD_none, Option.getD_some]; omega
  | some k =>
    have hk : k < maxRetries := by simpa [jsGE, not_le] using h2
    simp only [Option.getD_some]
    omega

lemma clientSend_issued {α : Type} (c : CubicClient)
    (t : Nat → RequestConfig → Except AxiosError α) (cfg : RequestConfig) :
    ∀ x ∈ (clientSend c t cfg).issued, x = cfg := by
  unfold clientSend
  cases c.retryMax with
  | none => intro x hx; simp_all [oneAttempt]
  | some m => exact runRetry_issued m t cfg 0 none

lemma call_thrown_of_invalid (c : CubicClient) (input : CallInput)
    (t : Nat → RequestConfig → Except AxiosError CallResponse) (e : String)
    (h : prepareCallRequest input = .error e) :
    call c input t = .thrown e := by
  unfold call
  rw [h]

lemma callAgent_transport_irrelevant (c : CubicClient) (name : Option String)
    (input : CallInput)
    (t t' : Nat → RequestConfig → Except AxiosError CallResponse) (e : String)
    (h : prepareCallRequest input = .error e) :
    callAgent c name input t = callAgent c name input t' := by
  unfold callAgent
  by_cases hn : strTruthy name = true <;> simp [hn, h]

lemma validateMessages_append_bad (good : List Message) (m : Message)
    (rest : List Message) (tl : String)
    (hgood : ∀ x ∈ good, validMessage x = true)
    (hm : violationSuffix m = some tl) :
    validateMessages (good ++ m :: rest) = .error ("Each message" ++ tl) := by
  induction good with
  | nil => simp [validateMessages, checkMessage_eq_violation, hm]
  | cons g gs ih =>
    have hg : violationSuffix g = none :=
      (violationSuffix_none_iff g).mpr (hgood g (List.mem_cons_self g gs))
    have : validateMessages ((g :: gs) ++ m :: rest)
        = validateMessages (gs ++ m :: rest) := by
      simp [validateMessages, checkMessage_eq_violation, hg]
    rw [this]
    exact ih fun x hx => hgood x (List.mem_cons_of_mem g hx)

end CubicClientKit

namespace CubicClientKit

/-- Claim C3, counterexample: normalization of a single Message is NOT the
same failure as normalization of the one-element array containing it — the
single-message branch throws "Message must have a type property" while the
array branch throws "Each message must have a type property" for the same
invalid message (sender and content present, type missing). -/
theorem c3_single_vs_array_counterexample :
    prepareCallRequest (.single ⟨some ⟨some "u", none⟩, none, some "hi", none⟩)
      ≠ prepareCallRequest
          (.array [⟨some ⟨some "u", none⟩, none, some "hi", none⟩]) := by
  decide

/-- Claim C3 (amended): a single Message and the one-element array
containing it normalize to the same CallRequest on success, and on invalid
input both fail at the same validation check, with error messages that
agree after their branch-specific first word ("Message" vs
"Each message"); for every non-empty sequence of valid Messages,
normalization is the identity reshape. -/
theorem c3_single_array_equivalence (m : Message) (ms : List Message)
    (hne : ms ≠ []) (hvalid : ∀ x ∈ ms, validMessage x = true) :
    (validMessage m = true →
      prepareCallRequest (.single m) = .ok ⟨[m]⟩ ∧
      prepareCallRequest (.array [m]) = .ok ⟨[m]⟩) ∧
    (validMessage m = false →
      ∃ tl, prepareCallRequest (.single m) = .error ("Message" ++ tl) ∧
        prepareCallRequest (.array [m]) = .error ("Each message" ++ tl)) ∧
    prepareCallRequest (.array ms) = .ok ⟨ms⟩ := by
  refine ⟨?_, ?_, ?_⟩
  · intro hv
    have h : violationSuffix m = none := (violationSuffix_none_iff m).mpr hv
    constructor
    · simp [prepareCallRequest, checkMessage_eq_violation, h]
    · simp [prepareCallRequest, validateMessages,
        checkMessage_eq_violation, h]
  · intro hv
    obtain ⟨tl, htl⟩ : ∃ tl, violationSuffix m = some tl := by
      rcases hvs : violationSuffix m with _ | tl
      · rw [(violationSuffix_none_iff m).mp hvs] at hv
        exact absurd hv (by simp)
      · exact ⟨tl, rfl⟩
    refine ⟨tl, ?_, ?_⟩
    · simp [prepareCallRequest, checkMessage_eq_violation, htl]
    · simp [prepareCallRequest, validateMessages,
        checkMessage_eq_violation, htl]
  · have hlen : ¬ ms.length = 0 := by
      simpa [List.length_eq_zero] using hne
    simp [prepareCallRequest, hlen, validateMessages_ok ms hvalid]

/-- Claim C3 witness: a concrete valid message and one-element sequence. -/
theorem c3_single_array_equivalence_witness :
    prepareCallRequest
        (.single ⟨some ⟨some "user_1", none⟩, some "text", some "hi", none⟩)
      = .ok ⟨[⟨some ⟨some "user_1", none⟩, some "text", some "hi", none⟩]⟩ ∧
    prepareCallRequest
        (.array [⟨some ⟨some "user_1", none⟩, some "text", some "hi", none⟩])
      = .ok ⟨[⟨some ⟨some "user_1", none⟩, some "text", some "hi", none⟩]⟩ :=
  (c3_single_array_equivalence
    ⟨some ⟨some "user_1", none⟩, some "text", some "hi", none⟩
    [⟨some ⟨some "user_1", none⟩, some "text", some "hi", none⟩]
    (by decide) (by decide)).1 (by decide)

/-- Claim C5: the empty message array is rejected with
"messages array cannot be empty" before any network activity (the outcome
does not depend on the transport), and a single-Message input can never
produce that error. -/
theorem c5_empty_array_rejected (c : CubicClient) (name : Option String)
    (t t' : Nat → RequestConfig → Except AxiosError CallResponse) :
    prepareCallRequest (.array []) = .error "messages array cannot be empty" ∧
    call c (.array []) t = .thrown "messages array cannot be empty" ∧
    call c (.array []) t = call c (.array []) t' ∧
    callAgent c name (.array []) t = callAgent c name (.array []) t' ∧
    ∀ m : Message,
      prepareCallRequest (.single m)
        ≠ .error "messages array cannot be empty" := by
  have h1 : prepareCallRequest (.array [])
      = .error "messages array cannot be empty" := by decide
  refine ⟨h1, call_thrown_of_invalid c _ t _ h1, ?_, ?_, ?_⟩
  · rw [call_thrown_of_invalid c _ t _ h1, call_thrown_of_invalid c _ t' _ h1]
  · exact callAgent_transport_irrelevant c name _ t t' _ h1
  · intro m
    show ¬ _
    rw [show prepareCallRequest (.single m)
        = match checkMessage "Message" m with
          | .error e => .error e
          | .ok _ => .ok ⟨[m]⟩ from rfl]
    rw [checkMessage_eq_violation]
    unfold violationSuffix
    split_ifs <;> first | decide | simp

/-- Claim C8: `getAgents` resolves with exactly the list found in the
response's `availableAgents` field, with no filtering or reordering. -/
theorem c8_getAgents_exact (c : CubicClient)
    (t : Nat → RequestConfig → Except AxiosError AgentsResponse)
    (names : List String)
    (h : (clientSend c t ⟨"GET", "/agents", none, c.timeout⟩).result
        = .ok ⟨names⟩) :
    outcomeValue AgentsResponse.availableAgents (getAgents c t)
      = .ok names := by
  simp [getAgents, outcomeValue, h]

/-- Claim C8 witness: a response listing duplicate agent names is returned
verbatim, duplicates and order preserved. -/
theorem c8_getAgents_exact_witness :
    outcomeValue AgentsResponse.availableAgents
      (getAgents ⟨"http://localhost:1503", 90000, none⟩
        (fun _ _ => .ok ⟨["alpha", "beta", "alpha"]⟩))
      = .ok ["alpha", "beta", "alpha"] :=
  c8_getAgents_exact ⟨"http://localhost:1503", 90000, none⟩
    (fun _ _ => .ok ⟨["alpha", "beta", "alpha"]⟩)
    ["alpha", "beta", "alpha"] rfl

/-- Claim C9: the presence checks are truthiness checks, so a message with
`content = ""` is rejected with the sender/content message even though both
properties are present, a message with `sender.id = ""` is rejected with
the id message, and neither reaches the network (the outcome does not
depend on the transport). -/
theorem c9_empty_string_fields_rejected (m : Message) (s : Sender)
    (c : CubicClient) (name : Option String)
    (t t' : Nat → RequestConfig → Except AxiosError CallResponse) :
    (m.content = some "" →
      prepareCallRequest (.single m)
        = .error "Message must have both sender and content properties" ∧
      prepareCallRequest (.array [m])
        = .error "Each message must have both sender and content properties" ∧
      call c (.single m) t = call c (.single m) t' ∧
      callAgent c name (.single m) t = callAgent c name (.single m) t') ∧
    (m.sender = some s → s.id = some "" → strTruthy m.content = true →
      prepareCallRequest (.single m)
        = .error "Message sender must have an id property" ∧
      prepareCallRequest (.array [m])
        = .error "Each message sender must have an id property" ∧
      call c (.single m) t = call c (.single m) t' ∧
      callAgent c name (.single m) t = callAgent c name (.single m) t') := by
  constructor
  · intro hc
    have hct : strTruthy m.content = false := by rw [hc]; decide
    have hv : violationSuffix m
        = some " must have both sender and content properties" := by
      unfold violationSuffix
      rw [hct]
      simp
    have h1 : prepareCallRequest (.single m)
        = .error "Message must have both sender and content properties" := by
      simp [prepareCallRequest, checkMessage_eq_violation, hv]
    refine ⟨h1, ?_, ?_, callAgent_transport_irrelevant c name _ t t' _ h1⟩
    · simp [prepareCallRequest, validateMessages,
        checkMessage_eq_violation, hv]
    · rw [call_thrown_of_invalid c _ t _ h1, call_thrown_of_invalid c _ t' _ h1]
  · intro hs hid hct
    have hidt : strTruthy (m.sender.bind Sender.id) = false := by
      rw [hs, Option.some_bind, hid]
      decide
    have hv : violationSuffix m = some " sender must have an id property" := by
      unfold violationSuffix
      rw [hidt, hct]
      simp [hs]
    have h1 : prepareCallRequest (.single m)
        = .error "Message sender must have an id property" := by
      simp [prepareCallRequest, checkMessage_eq_violation, hv]
    refine ⟨h1, ?_, ?_, callAgent_transport_irrelevant c name _ t t' _ h1⟩
    · simp [prepareCallRequest, validateMessages,
        checkMessage_eq_violation, hv]
    · rw [call_thrown_of_invalid c _ t _ h1, call_thrown_of_invalid c _ t' _ h1]

/-- Claim C9 witness: a message whose content is `""` and a message whose
sender id is `""`, both with every property present, are rejected with the
corresponding validation message. -/
theorem c9_empty_string_fields_rejected_witness :
    prepareCallRequest
        (.single ⟨some ⟨some "user_1", none⟩, some "text", some "", none⟩)
      = .error "Message must have both sender and content properties" ∧
    prepareCallRequest
        (.single ⟨some ⟨some "", none⟩, some "text", some "hello", none⟩)
      = .error "Message sender must have an id property" :=
  ⟨((c9_empty_string_fields_rejected
      ⟨some ⟨some "user_1", none⟩, some "text", some "", none⟩
      ⟨some "user_1", none⟩ ⟨"http://localhost:1503", 90000, none⟩ none
      (fun _ _ => .error ⟨none, none, true⟩)
      (fun _ _ => .error ⟨none, none, true⟩)).1 rfl).1,
   ((c9_empty_string_fields_rejected
      ⟨some ⟨some "", none⟩, some "text", some "hello", none⟩
      ⟨some "", none⟩ ⟨"http://localhost:1503", 90000, none⟩ none
      (fun _ _ => .error ⟨none, none, true⟩)
      (fun _ _ => .error ⟨none, none, true⟩)).2 rfl rfl (by decide)).1⟩

/-- Claim C10: an explicitly supplied timeout of 0 is treated exactly like
an omitted timeout — the constructor's falsy fallback yields the 90000 ms
default. -/
theorem c10_timeout_zero_is_default (o : CubicClientOptions)
    (h0 : o.timeout = some 0) :
    createClient o = createClient { o with timeout := none } ∧
    ∀ c, createClient o = .ok c → c.timeout = 90000 := by
  constructor
  · unfold createClient
    rw [h0]
    simp [intTruthy]
  · intro c hc
    unfold createClient at hc
    by_cases hb : strTruthy o.baseUrl = true
    · rw [if_neg (by simp [hb])] at hc
      rw [h0] at hc
      have := (Except.ok.injEq _ _).mp hc.symm
      rw [this]
      simp [intTruthy]
    · rw [if_pos (by simp [hb])] at hc
      exact absurd hc (by simp)

/-- Claim C10 witness: `timeout: 0` and an omitted timeout construct the
same client, whose per-attempt timeout is 90000 ms. -/
theorem c10_timeout_zero_is_default_witness :
    createClient ⟨some "http://localhost:1503", some 0, none⟩
      = createClient ⟨some "http://localhost:1503", none, none⟩ ∧
    (⟨"http://localhost:1503", 90000, none⟩ : CubicClient).timeout = 90000 :=
  ⟨(c10_timeout_zero_is_default
      ⟨some "http://localhost:1503", some 0, none⟩ rfl).1,
   (c10_timeout_zero_is_default
      ⟨some "http://localhost:1503", some 0, none⟩ rfl).2
      ⟨"http://localhost:1503", 90000, none⟩ (by decide)⟩

/-- Claim C1: with the interceptor installed at maxRetries = 3 and a
transport failing with HTTP 503 on the first two attempts and succeeding
on the third, the client issues exactly 3 attempts with the identical
request configuration, waits 1000 ms before attempt 2 and 2000 ms before
attempt 3, and resolves with the third response's `content`. -/
theorem c1_retry_503_three_attempts (c : CubicClient) (cfg : RequestConfig)
    (t : Nat → RequestConfig → Except AxiosError CallResponse)
    (e1 e2 : AxiosError) (resp : CallResponse)
    (hmax : c.retryMax = some 3)
    (h0 : t 0 cfg = .error e1) (h1 : t 1 cfg = .error e2)
    (h2 : t 2 cfg = .ok resp)
    (hcfg1 : e1.hasConfig = true) (hst1 : e1.status = some 503)
    (hcfg2 : e2.hasConfig = true) (hst2 : e2.status = some 503) :
    clientSend c t cfg
      = ⟨[cfg, cfg, cfg], [1000, 2000], .ok resp⟩ ∧
    outcomeValue CallResponse.content (.network (clientSend c t cfg))
      = .ok resp.content := by
  have hre1 : isRetryable e1 = true := by
    unfold isRetryable
    rw [hst1]
    simp
  have hre2 : isRetryable e2 = true := by
    unfold isRetryable
    rw [hst2]
    simp
  have hsend : clientSend c t cfg
      = ⟨[cfg, cfg, cfg], [1000, 2000], .ok resp⟩ := by
    unfold clientSend
    rw [hmax]
    dsimp only
    rw [runRetry, h0]
    dsimp only
    rw [dif_neg (by simp [hcfg1, jsGE])]
    rw [if_pos hre1]
    rw [runRetry, h1]
    dsimp only
    rw [dif_neg (by simp [hcfg2, jsGE])]
    rw [if_pos hre2]
    rw [runRetry, h2]
    rfl
  exact ⟨hsend, by rw [hsend]; rfl⟩

/-- Claim C1 witness: a concrete client with maxRetries = 3 and a concrete
transport mock returning 503, 503, then a 200 response. -/
theorem c1_retry_503_three_attempts_witness :
    clientSend (α := CallResponse) ⟨"http://localhost:1503", 90000, some 3⟩
      (fun i _ =>
        if i ≤ 1 then .error ⟨none, some 503, true⟩
        else .ok ⟨⟨"gpt_4o", "GPT-4o"⟩, "2025-01-01T00:00:00Z", "text",
          "hello there", ⟨12, 0⟩⟩)
      ⟨"POST", "/dispatch", none, 90000⟩
      = ⟨[⟨"POST", "/dispatch", none, 90000⟩,
          ⟨"POST", "/dispatch", none, 90000⟩,
          ⟨"POST", "/dispatch", none, 90000⟩], [1000, 2000],
         .ok ⟨⟨"gpt_4o", "GPT-4o"⟩, "2025-01-01T00:00:00Z", "text",
           "hello there", ⟨12, 0⟩⟩⟩ :=
  (c1_retry_503_three_attempts ⟨"http://localhost:1503", 90000, some 3⟩
    ⟨"POST", "/dispatch", none, 90000⟩
    (fun i _ =>
      if i ≤ 1 then .error ⟨none, some 503, true⟩
      else .ok ⟨⟨"gpt_4o", "GPT-4o"⟩, "2025-01-01T00:00:00Z", "text",
        "hello there", ⟨12, 0⟩⟩)
    ⟨none, some 503, true⟩ ⟨none, some 503, true⟩
    ⟨⟨"gpt_4o", "GPT-4o"⟩, "2025-01-01T00:00:00Z", "text",
      "hello there", ⟨12, 0⟩⟩
    rfl rfl rfl rfl rfl rfl rfl rfl).1

/-- Claim C2: a failure outside the retryable class (code not
ECONNABORTED / ENOTFOUND / ECONNREFUSED and no HTTP status >= 500, e.g. a
400 response) terminates the logical request after exactly one attempt
with the original error, whatever the remaining retry budget. -/
theorem c2_non_retryable_one_attempt {α : Type} (c : CubicClient)
    (cfg : RequestConfig)
    (t : Nat → RequestConfig → Except AxiosError α) (e : AxiosError)
    (h0 : t 0 cfg = .error e)
    (hc1 : e.code ≠ some "ECONNABORTED")
    (hc2 : e.code ≠ some "ENOTFOUND")
    (hc3 : e.code ≠ some "ECONNREFUSED")
    (hs : ∀ s, e.status = some s → s < 500) :
    clientSend c t cfg = ⟨[cfg], [], .error e⟩ := by
  have hre : isRetryable e = false := by
    unfold isRetryable
    cases hst : e.status with
    | none =>
      simp only [Bool.or_eq_false_iff, beq_eq_false_iff_ne]
      exact ⟨⟨⟨hc1, hc2⟩, hc3⟩, trivial⟩
    | some s =>
      have hlt := hs s hst
      simp only [Bool.or_eq_false_iff, beq_eq_false_iff_ne,
        decide_eq_false_iff_not, not_le]
      exact ⟨⟨⟨hc1, hc2⟩, hc3⟩, hlt⟩
  unfold clientSend
  cases hr : c.retryMax with
  | none => simp [oneAttempt, h0]
  | some m =>
    dsimp only
    rw [runRetry, h0]
    dsimp only
    by_cases hcfg : e.hasConfig = true
    · rw [dif_neg (by simp [hcfg, jsGE])]
      rw [if_neg (by simp [hre])]
    · rw [dif_pos (by
        simp only [Bool.not_eq_true] at hcfg
        simp [hcfg])]

/-- Claim C2 witness: a 400 response with maxRetries = 3 yields exactly one
attempt and the original error. -/
theorem c2_non_retryable_one_attempt_witness :
    clientSend (α := CallResponse) ⟨"http://localhost:1503", 90000, some 3⟩
      (fun _ _ => .error ⟨none, some 400, true⟩)
      ⟨"POST", "/dispatch", none, 90000⟩
      = ⟨[⟨"POST", "/dispatch", none, 90000⟩], [],
         .error ⟨none, some 400, true⟩⟩ :=
  c2_non_retryable_one_attempt (α := CallResponse)
    ⟨"http://localhost:1503", 90000, some 3⟩
    ⟨"POST", "/dispatch", none, 90000⟩
    (fun _ _ => .error ⟨none, some 400, true⟩)
    ⟨none, some 400, true⟩ rfl (by decide) (by decide) (by decide)
    (fun s h => by
      have h' : (some 400 : Option Nat) = some s := h
      have hs400 : s = 400 := ((Option.some.injEq 400 s).mp h').symm
      omega)

/-- Claim C4: validation applies the three checks in the fixed order —
sender and content, then sender.id, then type — uniformly for a single
Message and for any sequence position, failing on the first violated check
with its specific message, and any such failure happens before any network
request (the outcome does not depend on the transport). -/
theorem c4_validation_order_first_wins (good : List Message) (m : Message)
    (rest : List Message) (c : CubicClient) (name : Option String)
    (t t' : Nat → RequestConfig → Except AxiosError CallResponse)
    (hgood : ∀ x ∈ good, validMessage x = true) :
    (m.sender = none ∨ strTruthy m.content = false →
      prepareCallRequest (.single m)
        = .error "Message must have both sender and content properties" ∧
      prepareCallRequest (.array (good ++ m :: rest))
        = .error "Each message must have both sender and content properties") ∧
    (m.sender.isSome = true → strTruthy m.content = true →
     strTruthy (m.sender.bind Sender.id) = false →
      prepareCallRequest (.single m)
        = .error "Message sender must have an id property" ∧
      prepareCallRequest (.array (good ++ m :: rest))
        = .error "Each message sender must have an id property") ∧
    (m.sender.isSome = true → strTruthy m.content = true →
     strTruthy (m.sender.bind Sender.id) = true → strTruthy m.type = false →
      prepareCallRequest (.single m)
        = .error "Message must have a type property" ∧
      prepareCallRequest (.array (good ++ m :: rest))
        = .error "Each message must have a type property") ∧
    (∀ err, prepareCallRequest (.single m) = .error err →
      call c (.single m) t = .thrown err ∧
      call c (.single m) t = call c (.single m) t' ∧
      callAgent c name (.single m) t = callAgent c name (.single m) t') := by
  have hlen : ¬ (good ++ m :: rest).length = 0 := by simp
  refine ⟨?_, ?_, ?_, ?_⟩
  · intro hyp
    have hv : violationSuffix m
        = some " must have both sender and content properties" := by
      rcases hyp with h | h <;> simp [violationSuffix, h]
    constructor
    · simp [prepareCallRequest, checkMessage_eq_violation, hv]
    · rw [show prepareCallRequest (.array (good ++ m :: rest))
          = match validateMessages (good ++ m :: rest) with
            | .error e => .error e
            | .ok _ => .ok ⟨good ++ m :: rest⟩ by
            simp [prepareCallRequest, hlen]]
      rw [validateMessages_append_bad good m rest _ hgood hv]
      simp
  · intro hs hc hid
    have hv : violationSuffix m = some " sender must have an id property" := by
      simp [violationSuffix, hs, hc, hid]
    constructor
    · simp [prepareCallRequest, checkMessage_eq_violation, hv]
    · rw [show prepareCallRequest (.array (good ++ m :: rest))
          = match validateMessages (good ++ m :: rest) with
            | .error e => .error e
            | .ok _ => .ok ⟨good ++ m :: rest⟩ by
            simp [prepareCallRequest, hlen]]
      rw [validateMessages_append_bad good m rest _ hgood hv]
      simp
  · intro hs hc hid hty
    have hv : violationSuffix m = some " must have a type property" := by
      simp [violationSuffix, hs, hc, hid, hty]
    constructor
    · simp [prepareCallRequest, checkMessage_eq_violation, hv]
    · rw [show prepareCallRequest (.array (good ++ m :: rest))
          = match validateMessages (good ++ m :: rest) with
            | .error e => .error e
            | .ok _ => .ok ⟨good ++ m :: rest⟩ by
            simp [prepareCallRequest, hlen]]
      rw [validateMessages_append_bad good m rest _ hgood hv]
      simp
  · intro err herr
    refine ⟨call_thrown_of_invalid c _ t _ herr, ?_,
      callAgent_transport_irrelevant c name _ t t' _ herr⟩
    rw [call_thrown_of_invalid c _ t _ herr,
      call_thrown_of_invalid c _ t' _ herr]

/-- Claim C4 witness: a message with sender and content present but both
id and type missing fails the id check (the first violated check wins),
identically as a single message and in second position of a sequence. -/
theorem c4_validation_order_first_wins_witness :
    prepareCallRequest
        (.single ⟨some ⟨none, none⟩, none, some "hi", none⟩)
      = .error "Message sender must have an id property" ∧
    prepareCallRequest
        (.array [⟨some ⟨some "u", none⟩, some "text", some "ok", none⟩,
          ⟨some ⟨none, none⟩, none, some "hi", none⟩,
          ⟨none, none, none, none⟩])
      = .error "Each message sender must have an id property" :=
  (c4_validation_order_first_wins
    [⟨some ⟨some "u", none⟩, some "text", some "ok", none⟩]
    ⟨some ⟨none, none⟩, none, some "hi", none⟩
    [⟨none, none, none, none⟩]
    ⟨"http://localhost:1503", 90000, none⟩ none
    (fun _ _ => .error ⟨none, none, true⟩)
    (fun _ _ => .error ⟨none, none, true⟩)
    (by decide)).2.1 (by decide) (by decide) (by decide)

/-- Claim C6: construction fails synchronously with "baseUrl is required"
when baseUrl is missing or empty; with the timeout option omitted the
instance timeout is 90000 ms and every config a dispatch call issues
carries it; with retry absent or <= 0 no interceptor is installed and
every request is attempted exactly once. -/
theorem c6_constructor_contract (o : CubicClientOptions) :
    ((o.baseUrl = none ∨ o.baseUrl = some "") →
      createClient o = .error "baseUrl is required") ∧
    (o.timeout = none → ∀ c, createClient o = .ok c →
      c.timeout = 90000 ∧
      ∀ (input : CallInput)
        (t : Nat → RequestConfig → Except AxiosError CallResponse)
        (r : RetryResult CallResponse),
        call c input t = .network r → ∀ x ∈ r.issued, x.timeout = 90000) ∧
    ((o.retry = none ∨ ∃ k, o.retry = some k ∧ k ≤ 0) →
      ∀ c, createClient o = .ok c →
      ∀ (α : Type) (t : Nat → RequestConfig → Except AxiosError α)
        (cfg : RequestConfig),
        clientSend c t cfg = ⟨[cfg], [], t 0 cfg⟩) := by
  refine ⟨?_, ?_, ?_⟩
  · rintro (h | h) <;> simp [createClient, h, strTruthy]
    decide
  · intro hto c hc
    unfold createClient at hc
    by_cases hb : strTruthy o.baseUrl = true
    · rw [if_neg (by simp [hb])] at hc
      have hcr := (Except.ok.injEq _ _).mp hc
      have htimeout : c.timeout = 90000 := by
        rw [← hcr]
        simp [hto, intTruthy]
      refine ⟨htimeout, ?_⟩
      intro input t r hcall x hx
      unfold call at hcall
      cases hp : prepareCallRequest input with
      | error e => rw [hp] at hcall; simp at hcall
      | ok payload =>
        rw [hp] at hcall
        dsimp only at hcall
        have hr := (CallOutcome.network.injEq _ _).mp hcall
        rw [← hr] at hx
        have := clientSend_issued c t
          ⟨"POST", "/dispatch", some payload, c.timeout⟩ x hx
        rw [this, ← htimeout]
    · rw [if_pos (by simp [hb])] at hc
      exact absurd hc (by simp)
  · intro hretry c hc α t cfg
    unfold createClient at hc
    by_cases hb : strTruthy o.baseUrl = true
    · rw [if_neg (by simp [hb])] at hc
      have hcr := (Except.ok.injEq _ _).mp hc
      have hnone : c.retryMax = none := by
        rw [← hcr]
        rcases hretry with h | ⟨k, hk, hk0⟩
        · simp [h, intTruthy]
        · have hnk : ¬ (0 : Int) < k := not_lt.mpr hk0
          simp [hk, hnk]
      simp [clientSend, hnone, oneAttempt]
    · rw [if_pos (by simp [hb])] at hc
      exact absurd hc (by simp)

/-- Claim C6 witness: a missing baseUrl is rejected; a client built with
only a baseUrl has timeout 90000 and makes exactly one attempt. -/
theorem c6_constructor_contract_witness :
    createClient ⟨none, none, none⟩ = .error "baseUrl is required" ∧
    (⟨"http://localhost:1503", 90000, none⟩ : CubicClient).timeout = 90000 ∧
    clientSend (α := CallResponse) ⟨"http://localhost:1503", 90000, none⟩
      (fun _ _ => .error ⟨none, none, true⟩) ⟨"GET", "/health", none, 90000⟩
      = ⟨[⟨"GET", "/health", none, 90000⟩], [],
         .error ⟨none, none, true⟩⟩ :=
  ⟨(c6_constructor_contract ⟨none, none, none⟩).1 (Or.inl rfl),
   ((c6_constructor_contract ⟨some "http://localhost:1503", none, none⟩).2.1
      rfl ⟨"http://localhost:1503", 90000, none⟩ rfl).1,
   (c6_constructor_contract ⟨some "http://localhost:1503", none, none⟩).2.2
      (Or.inl rfl) ⟨"http://localhost:1503", 90000, none⟩ rfl CallResponse
      (fun _ _ => .error ⟨none, none, true⟩) ⟨"GET", "/health", none, 90000⟩⟩

/-- Claim C7: `callAgent` throws "agentName is required" for a falsy agent
name without touching the transport; for a non-empty name it issues a POST
to "/dispatch/" ++ encodeURIComponent(agentName) — in particular
"agent with spaces" encodes to "agent%20with%20spaces" — and resolves with
the response's `content` field. -/
theorem c7_callAgent_contract (c : CubicClient) (name : Option String)
    (input : CallInput)
    (t t' : Nat → RequestConfig → Except AxiosError CallResponse) :
    ((name = none ∨ name = some "") →
      callAgent c name input t = .thrown "agentName is required" ∧
      callAgent c name input t = callAgent c name input t') ∧
    (∀ s, name = some s → s ≠ "" →
      ∀ payload, prepareCallRequest input = .ok payload →
      callAgent c name input t
        = .network (clientSend c t
            ⟨"POST", "/dispatch/" ++ encodeURIComponent s, some payload,
             c.timeout⟩)) ∧
    (∀ r resp, callAgent c name input t = .network r → r.result = .ok resp →
      outcomeValue CallResponse.content (callAgent c name input t)
        = .ok resp.content) ∧
    encodeURIComponent "agent with spaces" = "agent%20with%20spaces" := by
  refine ⟨?_, ?_, ?_, by decide⟩
  · intro hyp
    have hfalsy : strTruthy name = false := by
      rcases hyp with h | h <;> rw [h] <;> decide
    exact ⟨by simp [callAgent, hfalsy], by simp [callAgent, hfalsy]⟩
  · intro s hn hne payload hp
    have hse : s.isEmpty = false := by
      cases hie : s.isEmpty
      · rfl
      · exact absurd ((String.isEmpty_iff s).mp hie) hne
    have hst : strTruthy name = true := by
      rw [hn]
      simp [strTruthy, hse]
    unfold callAgent
    rw [if_neg (by simp [hst])]
    rw [hp]
    dsimp only
    rw [hn]
    rfl
  · intro r resp hr hres
    rw [hr]
    simp [outcomeValue, hres]

/-- Claim C7 witness: an empty agent name is rejected; the name
"agent with spaces" is percent-encoded in the request path; a successful
response's content is returned. -/
theorem c7_callAgent_contract_witness :
    callAgent ⟨"http://localhost:1503", 90000, none⟩ (some "")
      (.single ⟨some ⟨some "u", none⟩, some "text", some "hi", none⟩)
      (fun _ _ => .error ⟨none, none, true⟩)
      = .thrown "agentName is required" ∧
    callAgent ⟨"http://localhost:1503", 90000, none⟩
      (some "agent with spaces")
      (.single ⟨some ⟨some "u", none⟩, some "text", some "hi", none⟩)
      (fun _ _ => .error ⟨none, none, true⟩)
      = .network (clientSend ⟨"http://localhost:1503", 90000, none⟩
          (fun _ _ => .error ⟨none, none, true⟩)
          ⟨"POST", "/dispatch/" ++ encodeURIComponent "agent with spaces",
           some ⟨[⟨some ⟨some "u", none⟩, some "text", some "hi", none⟩]⟩,
           90000⟩) ∧
    encodeURIComponent "agent with spaces" = "agent%20with%20spaces" :=
  ⟨((c7_callAgent_contract ⟨"http://localhost:1503", 90000, none⟩ (some "")
      (.single ⟨some ⟨some "u", none⟩, some "text", some "hi", none⟩)
      (fun _ _ => .error ⟨none, none, true⟩)
      (fun _ _ => .error ⟨none, none, true⟩)).1 (Or.inr rfl)).1,
   (c7_callAgent_contract ⟨"http://localhost:1503", 90000, none⟩
      (some "agent with spaces")
      (.single ⟨some ⟨some "u", none⟩, some "text", some "hi", none⟩)
      (fun _ _ => .error ⟨none, none, true⟩)
      (fun _ _ => .error ⟨none, none, true⟩)).2.1
      "agent with spaces" rfl (by decide)
      ⟨[⟨some ⟨some "u", none⟩, some "text", some "hi", none⟩]⟩ (by decide),
   (c7_callAgent_contract ⟨"http://localhost:1503", 90000, none⟩
      (some "x")
      (.single ⟨some ⟨some "u", none⟩, some "text", some "hi", none⟩)
      (fun _ _ => .error ⟨none, none, true⟩)
      (fun _ _ => .error ⟨none, none, true⟩)).2.2.2⟩

end CubicClientKit
